/-
Verification of the TokenSwapSolana contribution-tracking and reward-accrual
program against its specification.

The development shallowly embeds the relevant Rust code:
  * the manual byte codec of `src/program/src/manual_serialization.rs`
    (`ProgramState::serialize`/`deserialize`) and of
    `src/program/src/multi_hub_swap_complete.rs`
    (`ProgramState::unpack`/`pack`, `LiquidityContribution::unpack`/`pack`),
  * the distribution split and ledger updates of
    `src/program/src/multi_hub_swap.rs` (`process_buy_and_distribute`,
    `process_claim_weekly_reward`, `process_withdraw_contribution`),
  * the corresponding operations of `multi_hub_swap_complete.rs`
    (`process_claim_rewards`, `process_withdraw_liquidity`,
    `process_contribute`) and the checked-arithmetic swap split of
    `src/attached_assets/New_Version.rs` (`process_sol_to_yot_swap`).

Byte buffers are `List Nat` with every byte below 256; `u64` fields are
`Nat` with wrapping arithmetic made explicit through `% 2^64`, matching the
release-mode semantics of the on-chain build; `i64` fields are `Int` encoded
in two's complement.
-/
import Mathlib

set_option maxRecDepth 100000

/-- 2^64, the modulus of Rust `u64` arithmetic. -/
def U64MOD : Nat := 18446744073709551616

/-- 2^128, the modulus of Rust `u128` arithmetic. -/
def U128MOD : Nat := 340282366920938463463374607431768211456

/-- Wrapping reduction into the `u64` range (release-mode overflow). -/
def wrap64 (n : Nat) : Nat := n % U64MOD

/-- Rust `u64` subtraction `a - b` with release-mode wrap-around. -/
def sub64 (a b : Nat) : Nat := (a + U64MOD - b) % U64MOD

/-- Extract the sub-buffer `l[off .. off+len)`, as Rust slice indexing does. -/
def byteSlice (l : List Nat) (off len : Nat) : List Nat := (l.drop off).take len

/-- Little-endian byte list to unsigned integer, the reading direction of
`u64::from_le_bytes`. -/
def leToNat : List Nat → Nat
  | [] => 0
  | b :: rest => b + 256 * leToNat rest

/-- The eight little-endian bytes of a `u64`, as written by `to_le_bytes`. -/
def u64ToLe (n : Nat) : List Nat :=
  [n % 256, n / 256 % 256, n / 65536 % 256, n / 16777216 % 256,
   n / 4294967296 % 256, n / 1099511627776 % 256,
   n / 281474976710656 % 256, n / 72057594037927936 % 256]

/-- The eight little-endian two's-complement bytes of an `i64`. -/
def i64ToLe (z : Int) : List Nat := u64ToLe (z % 18446744073709551616).toNat

/-- Little-endian two's-complement bytes back to an `i64` value. -/
def leToI64 (bs : List Nat) : Int :=
  let n := leToNat bs
  if n < 9223372036854775808 then (n : Int) else (n : Int) - 18446744073709551616

/-- A well-formed 32-byte identity (Solana `Pubkey`). -/
def validPk (l : List Nat) : Prop := l.length = 32 ∧ ∀ b ∈ l, b < 256

instance (l : List Nat) : Decidable (validPk l) := by
  unfold validPk; infer_instance

theorem u64ToLe_length (n : Nat) : (u64ToLe n).length = 8 := rfl

theorem i64ToLe_length (z : Int) : (i64ToLe z).length = 8 := rfl

theorem leToNat_u64ToLe (n : Nat) (h : n < U64MOD) : leToNat (u64ToLe n) = n := by
  unfold U64MOD at h
  simp only [u64ToLe, leToNat]
  omega

theorem leToI64_i64ToLe (z : Int) (h1 : -9223372036854775808 ≤ z)
    (h2 : z < 9223372036854775808) : leToI64 (i64ToLe z) = z := by
  unfold leToI64 i64ToLe
  have hnn : (0 : Int) ≤ z % 18446744073709551616 :=
    Int.emod_nonneg z (by norm_num)
  have hlt : z % 18446744073709551616 < 18446744073709551616 :=
    Int.emod_lt_of_pos z (by norm_num)
  rw [leToNat_u64ToLe]
  · simp only []
    omega
  · unfold U64MOD
    omega

/-- The error values the embedded program paths can return
(`solana_program::program_error::ProgramError`). -/
inductive ProgErr where
  | missingRequiredSignature
  | invalidAccountData
  | invalidArgument
  | insufficientFunds
  | accountDataTooSmall
  | invalidInstructionData
  | arithmeticOverflow
deriving DecidableEq, Repr

/-- Global configuration record of `manual_serialization.rs` (legacy 136-byte
layout: three 32-byte identities and five `u64` basis-point rates). -/
structure ProgramStateV1 where
  admin : List Nat
  yot_mint : List Nat
  yos_mint : List Nat
  lp_contribution_rate : Nat
  admin_fee_rate : Nat
  yos_cashback_rate : Nat
  swap_fee_rate : Nat
  referral_rate : Nat
deriving DecidableEq, Repr

/-- Well-formedness of a `ProgramStateV1` value: identities are 32 raw bytes
and every rate fits in a `u64`. -/
def ProgramStateV1.valid (s : ProgramStateV1) : Prop :=
  validPk s.admin ∧ validPk s.yot_mint ∧ validPk s.yos_mint ∧
  s.lp_contribution_rate < U64MOD ∧ s.admin_fee_rate < U64MOD ∧
  s.yos_cashback_rate < U64MOD ∧ s.swap_fee_rate < U64MOD ∧
  s.referral_rate < U64MOD

instance (s : ProgramStateV1) : Decidable s.valid := by
  unfold ProgramStateV1.valid; infer_instance

/-- `ProgramState::serialize` of `manual_serialization.rs`: fails with
`AccountDataTooSmall` when the buffer is shorter than 136 bytes, otherwise
overwrites the first 136 bytes of `dst` in the fixed field order and leaves
the remainder untouched. -/
def ProgramStateV1.serialize (s : ProgramStateV1) (dst : List Nat) :
    Except ProgErr (List Nat) :=
  if dst.length < 136 then .error .accountDataTooSmall
  else .ok (s.admin ++ s.yot_mint ++ s.yos_mint ++
    u64ToLe s.lp_contribution_rate ++ u64ToLe s.admin_fee_rate ++
    u64ToLe s.yos_cashback_rate ++ u64ToLe s.swap_fee_rate ++
    u64ToLe s.referral_rate ++ dst.drop 136)

/-- `ProgramState::deserialize` of `manual_serialization.rs`: fails with
`AccountDataTooSmall` when fewer than 136 bytes are supplied, otherwise reads
the fields at their fixed offsets. -/
def ProgramStateV1.deserialize (src : List Nat) : Except ProgErr ProgramStateV1 :=
  if src.length < 136 then .error .accountDataTooSmall
  else .ok
    { admin := byteSlice src 0 32
      yot_mint := byteSlice src 32 32
      yos_mint := byteSlice src 64 32
      lp_contribution_rate := leToNat (byteSlice src 96 8)
      admin_fee_rate := leToNat (byteSlice src 104 8)
      yos_cashback_rate := leToNat (byteSlice src 112 8)
      swap_fee_rate := leToNat (byteSlice src 120 8)
      referral_rate := leToNat (byteSlice src 128 8) }

/-- Global configuration record of `multi_hub_swap_complete.rs` (current
176-byte layout with the extended central-liquidity fields). -/
structure ProgramStateV2 where
  admin : List Nat
  yot_mint : List Nat
  yos_mint : List Nat
  lp_contribution_rate : Nat
  admin_fee_rate : Nat
  yos_cashback_rate : Nat
  swap_fee_rate : Nat
  referral_rate : Nat
  liquidity_wallet : List Nat
  liquidity_threshold : Nat
deriving DecidableEq, Repr

/-- `ProgramState::unpack` of `multi_hub_swap_complete.rs`: length-sniffing
decoder.  A buffer of at least 176 bytes is read in the current layout; a
buffer of 136 to 175 bytes is read in the legacy layout with the extended
fields defaulted (`Pubkey::default()`, threshold `100000000`); anything
shorter fails with `InvalidAccountData`. -/
def ProgramStateV2.unpack (data : List Nat) : Except ProgErr ProgramStateV2 :=
  if data.length < 176 then
    if data.length < 136 then .error .invalidAccountData
    else .ok
      { admin := byteSlice data 0 32
        yot_mint := byteSlice data 32 32
        yos_mint := byteSlice data 64 32
        lp_contribution_rate := leToNat (byteSlice data 96 8)
        admin_fee_rate := leToNat (byteSlice data 104 8)
        yos_cashback_rate := leToNat (byteSlice data 112 8)
        swap_fee_rate := leToNat (byteSlice data 120 8)
        referral_rate := leToNat (byteSlice data 128 8)
        liquidity_wallet := List.replicate 32 0
        liquidity_threshold := 100000000 }
  else .ok
    { admin := byteSlice data 0 32
      yot_mint := byteSlice data 32 32
      yos_mint := byteSlice data 64 32
      lp_contribution_rate := leToNat (byteSlice data 96 8)
      admin_fee_rate := leToNat (byteSlice data 104 8)
      yos_cashback_rate := leToNat (byteSlice data 112 8)
      swap_fee_rate := leToNat (byteSlice data 120 8)
      referral_rate := leToNat (byteSlice data 128 8)
      liquidity_wallet := byteSlice data 136 32
      liquidity_threshold := leToNat (byteSlice data 168 8) }

/-- Per-user contribution ledger record (64-byte layout, identical in
`manual_serialization.rs`, `multi_hub_swap.rs` and
`multi_hub_swap_complete.rs`). -/
structure LiquidityContribution where
  user : List Nat
  contributed_amount : Nat
  start_timestamp : Int
  last_claim_time : Int
  total_claimed_yos : Nat
deriving DecidableEq, Repr

/-- Well-formedness of a ledger record: the owner identity is 32 raw bytes,
the unsigned counters fit in `u64` and the timestamps in `i64`. -/
def LiquidityContribution.valid (c : LiquidityContribution) : Prop :=
  validPk c.user ∧ c.contributed_amount < U64MOD ∧
  -9223372036854775808 ≤ c.start_timestamp ∧
  c.start_timestamp < 9223372036854775808 ∧
  -9223372036854775808 ≤ c.last_claim_time ∧
  c.last_claim_time < 9223372036854775808 ∧
  c.total_claimed_yos < U64MOD

instance (c : LiquidityContribution) : Decidable c.valid := by
  unfold LiquidityContribution.valid; infer_instance

/-- `LiquidityContribution::pack` of `multi_hub_swap_complete.rs`: fails with
`InvalidAccountData` when the buffer is shorter than 64 bytes, otherwise
overwrites the first 64 bytes in the fixed field order. -/
def LiquidityContribution.pack (c : LiquidityContribution) (dst : List Nat) :
    Except ProgErr (List Nat) :=
  if dst.length < 64 then .error .invalidAccountData
  else .ok (c.user ++ u64ToLe c.contributed_amount ++
    i64ToLe c.start_timestamp ++ i64ToLe c.last_claim_time ++
    u64ToLe c.total_claimed_yos ++ dst.drop 64)

/-- `LiquidityContribution::unpack` of `multi_hub_swap_complete.rs`: fails
with `InvalidAccountData` when fewer than 64 bytes are supplied. -/
def LiquidityContribution.unpack (data : List Nat) :
    Except ProgErr LiquidityContribution :=
  if data.length < 64 then .error .invalidAccountData
  else .ok
    { user := byteSlice data 0 32
      contributed_amount := leToNat (byteSlice data 32 8)
      start_timestamp := leToI64 (byteSlice data 40 8)
      last_claim_time := leToI64 (byteSlice data 48 8)
      total_claimed_yos := leToNat (byteSlice data 56 8) }

theorem byteSlice_take (l : List Nat) (N off len : Nat) (h : off + len ≤ N) :
    byteSlice (l.take N) off len = byteSlice l off len := by
  unfold byteSlice
  rw [List.drop_take, List.take_take]
  congr 1
  omega

theorem byteSlice_append_start (a b : List Nat) (n : Nat) (h : a.length = n) :
    byteSlice (a ++ b) 0 n = a := by
  unfold byteSlice
  simpa using List.take_left' h

theorem byteSlice_append_block (a b : List Nat) (off len : Nat)
    (h : a.length ≤ off) :
    byteSlice (a ++ b) off len = byteSlice b (off - a.length) len := by
  unfold byteSlice
  rw [List.drop_append_eq_append_drop, List.drop_eq_nil_of_le h]
  simp

theorem programStateV1_roundtrip (s : ProgramStateV1) (dst : List Nat)
    (hv : s.valid) (hd : 136 ≤ dst.length) :
    ∃ buf, s.serialize dst = .ok buf ∧ ProgramStateV1.deserialize buf = .ok s := by
  obtain ⟨⟨ha, -⟩, ⟨hb, -⟩, ⟨hc, -⟩, h1, h2, h3, h4, h5⟩ := hv
  have hser : s.serialize dst = .ok (s.admin ++ s.yot_mint ++ s.yos_mint ++
      u64ToLe s.lp_contribution_rate ++ u64ToLe s.admin_fee_rate ++
      u64ToLe s.yos_cashback_rate ++ u64ToLe s.swap_fee_rate ++
      u64ToLe s.referral_rate ++ dst.drop 136) := by
    unfold ProgramStateV1.serialize
    rw [if_neg (by omega)]
  refine ⟨_, hser, ?_⟩
  unfold ProgramStateV1.deserialize
  rw [if_neg (by simp [ha, hb, hc, u64ToLe_length]; omega)]
  simp [byteSlice_append_block, byteSlice_append_start, ha, hb, hc,
    u64ToLe_length, leToNat_u64ToLe, h1, h2, h3, h4, h5]

theorem liquidityContribution_roundtrip (c : LiquidityContribution)
    (dst : List Nat) (hv : c.valid) (hd : 64 ≤ dst.length) :
    ∃ buf, c.pack dst = .ok buf ∧ LiquidityContribution.unpack buf = .ok c := by
  obtain ⟨⟨hu, -⟩, h1, h2, h3, h4, h5, h6⟩ := hv
  have hser : c.pack dst = .ok (c.user ++ u64ToLe c.contributed_amount ++
      i64ToLe c.start_timestamp ++ i64ToLe c.last_claim_time ++
      u64ToLe c.total_claimed_yos ++ dst.drop 64) := by
    unfold LiquidityContribution.pack
    rw [if_neg (by omega)]
  refine ⟨_, hser, ?_⟩
  unfold LiquidityContribution.unpack
  rw [if_neg (by simp [hu, u64ToLe_length, i64ToLe_length]; omega)]
  simp [byteSlice_append_block, byteSlice_append_start, hu,
    u64ToLe_length, i64ToLe_length, leToNat_u64ToLe, leToI64_i64ToLe,
    h1, h2, h3, h4, h5, h6]

/-- The distribution split of `process_buy_and_distribute` in
`multi_hub_swap.rs` (lines 550-554): liquidity and cashback portions are
`amount * rate / 10000` in wrapping `u64` arithmetic and the user portion is
the residual `amount - liquidity - cashback`.  Result order:
`(user_amount, liquidity_amount, cashback_amount)`. -/
def distSplit (amount lp_contribution_rate yos_cashback_rate : Nat) :
    Nat × Nat × Nat :=
  let liquidity_amount := wrap64 (amount * lp_contribution_rate) / 10000
  let cashback_amount := wrap64 (amount * yos_cashback_rate) / 10000
  let user_amount := sub64 (sub64 amount liquidity_amount) cashback_amount
  (user_amount, liquidity_amount, cashback_amount)

/-- The distribution split of `process_buy_and_distribute` in
`multi_hub_swap_complete.rs` (lines 461-464): every portion, including the
user portion, is computed independently from a hardcoded percentage
(`amount * 75 / 100`, `amount * 20 / 100`, `amount * 5 / 100`) in wrapping
`u64` arithmetic.  Result order: `(user_portion, liquidity_portion,
yos_cashback)`. -/
def buyDistributePortions (amount : Nat) : Nat × Nat × Nat :=
  (wrap64 (amount * 75) / 100, wrap64 (amount * 20) / 100,
   wrap64 (amount * 5) / 100)

/-- State transition of `process_buy_and_distribute` in `multi_hub_swap.rs`
on an existing ledger record, after the PDA-derived account checks: computes
the `distSplit`, adds only the liquidity portion to `contributed_amount`
(wrapping `+=`), stamps the owner, and initialises the timestamps when they
are zero.  Returns the split together with the updated ledger. -/
def process_buy_and_distribute (userSigned : Bool) (userKey : List Nat)
    (c : LiquidityContribution) (lp_contribution_rate yos_cashback_rate : Nat)
    (amount : Nat) (now : Int) :
    Except ProgErr ((Nat × Nat × Nat) × LiquidityContribution) :=
  if !userSigned then .error .missingRequiredSignature
  else
    let split := distSplit amount lp_contribution_rate yos_cashback_rate
    .ok (split,
      { user := userKey
        contributed_amount := (c.contributed_amount + split.2.1) % U64MOD
        start_timestamp := if c.start_timestamp = 0 then now else c.start_timestamp
        last_claim_time := if c.last_claim_time = 0 then now else c.last_claim_time
        total_claimed_yos := c.total_claimed_yos })

/-- `process_claim_weekly_reward` of `multi_hub_swap.rs` (lines 686-780),
after the PDA address check.  `caller` is any transaction signer (the source
comment allows "anyone on behalf of a user"); `userKey` is the reward
recipient whose ledger is addressed.  The source compares only
`contribution.user` with `userKey`, never with `caller`.  The weekly reward
is `contributed_amount * 192 / 10000` and the cooldown is 604800 seconds. -/
def process_claim_weekly_reward (caller : List Nat) (callerSigned : Bool)
    (userKey : List Nat) (c : LiquidityContribution) (now : Int) :
    Except ProgErr (Nat × LiquidityContribution) :=
  if !callerSigned then .error .missingRequiredSignature
  else if c.user ≠ userKey then .error .invalidAccountData
  else if c.contributed_amount = 0 then .error .invalidArgument
  else if now - c.last_claim_time < 604800 then .error .invalidArgument
  else
    let weekly_reward := wrap64 (c.contributed_amount * 192) / 10000
    .ok (weekly_reward,
      { c with last_claim_time := now
               total_claimed_yos := (c.total_claimed_yos + weekly_reward) % U64MOD })

/-- `process_claim_rewards` of `multi_hub_swap_complete.rs` (lines 567-652)
and `manual_serialization.rs` (lines 424-506), after the PDA address check:
same gates as the weekly-reward claim but `InsufficientFunds` for an empty
contribution and a reward of `contributed_amount * 2 / 100`. -/
def process_claim_rewards (caller : List Nat) (callerSigned : Bool)
    (userKey : List Nat) (c : LiquidityContribution) (now : Int) :
    Except ProgErr (Nat × LiquidityContribution) :=
  if !callerSigned then .error .missingRequiredSignature
  else if c.user ≠ userKey then .error .invalidAccountData
  else if c.contributed_amount = 0 then .error .insufficientFunds
  else if now - c.last_claim_time < 604800 then .error .invalidArgument
  else
    let reward_amount := wrap64 (c.contributed_amount * 2) / 100
    .ok (reward_amount,
      { c with last_claim_time := now
               total_claimed_yos := (c.total_claimed_yos + reward_amount) % U64MOD })

/-- `process_withdraw_contribution` of `multi_hub_swap.rs` (lines 783-861),
after the PDA address check: the signing user must own the record; the full
`contributed_amount` is paid back and the record is rewritten zeroed but with
its history fields preserved (the account is not deleted). -/
def process_withdraw_contribution (userSigned : Bool) (userKey : List Nat)
    (c : LiquidityContribution) :
    Except ProgErr (Nat × LiquidityContribution) :=
  if !userSigned then .error .missingRequiredSignature
  else if c.user ≠ userKey then .error .invalidAccountData
  else if c.contributed_amount = 0 then .error .invalidArgument
  else .ok (c.contributed_amount,
    { user := userKey
      contributed_amount := 0
      start_timestamp := c.start_timestamp
      last_claim_time := c.last_claim_time
      total_claimed_yos := c.total_claimed_yos })

/-- `process_withdraw_liquidity` of `multi_hub_swap_complete.rs` (lines
654-726), after the PDA address check: identical shape, with
`InsufficientFunds` for an empty contribution. -/
def process_withdraw_liquidity (userSigned : Bool) (userKey : List Nat)
    (c : LiquidityContribution) :
    Except ProgErr (Nat × LiquidityContribution) :=
  if !userSigned then .error .missingRequiredSignature
  else if c.user ≠ userKey then .error .invalidAccountData
  else if c.contributed_amount = 0 then .error .insufficientFunds
  else .ok (c.contributed_amount, { c with contributed_amount := 0 })

/-- `process_contribute` of `multi_hub_swap_complete.rs` (lines 994-1083) on
an existing ledger record, after the PDA address check: the signing user must
own the record and the gross `amount` itself is added to
`contributed_amount` with a wrapping `+=` (line 1078). -/
def process_contribute (userSigned : Bool) (userKey : List Nat)
    (c : LiquidityContribution) (amount : Nat) :
    Except ProgErr LiquidityContribution :=
  if !userSigned then .error .missingRequiredSignature
  else if c.user ≠ userKey then .error .invalidAccountData
  else .ok { c with contributed_amount := (c.contributed_amount + amount) % U64MOD }

/-- Rust `u128::checked_mul`: `none` exactly when the product overflows. -/
def checkedMulU128 (a b : Nat) : Option Nat :=
  if a * b < U128MOD then some (a * b) else none

/-- Rust `u128::checked_div`: `none` exactly when the divisor is zero. -/
def checkedDivU128 (a b : Nat) : Option Nat :=
  if b = 0 then none else some (a / b)

/-- The checked distribution split of `process_sol_to_yot_swap` in
`attached_assets/New_Version.rs` (lines 113-123): each component is computed
as `(total as u128).checked_mul(rate).ok_or(ArithmeticOverflow)?
.checked_div(10000).ok_or(ArithmeticOverflow)? as u64`; the user rate is the
`u64` expression `10000 - lp_contribution_rate - yos_cashback_rate`.  The
final `as u64` narrowing truncates. -/
def solToYotSplit (total lp_contribution_rate yos_cashback_rate : Nat) :
    Except ProgErr (Nat × Nat × Nat) :=
  let userRate := sub64 (sub64 10000 lp_contribution_rate) yos_cashback_rate
  match checkedMulU128 total userRate with
  | none => .error .arithmeticOverflow
  | some p1 =>
    match checkedDivU128 p1 10000 with
    | none => .error .arithmeticOverflow
    | some q1 =>
      match checkedMulU128 total lp_contribution_rate with
      | none => .error .arithmeticOverflow
      | some p2 =>
        match checkedDivU128 p2 10000 with
        | none => .error .arithmeticOverflow
        | some q2 =>
          match checkedMulU128 total yos_cashback_rate with
          | none => .error .arithmeticOverflow
          | some p3 =>
            match checkedDivU128 p3 10000 with
            | none => .error .arithmeticOverflow
            | some q3 => .ok (q1 % U64MOD, q2 % U64MOD, q3 % U64MOD)

/-- The ledger update of `process_sol_to_yot_swap` in
`attached_assets/New_Version.rs` (line 173): a `u64` `checked_add` that
fails with `ArithmeticOverflow` instead of wrapping. -/
def contributeUpdateChecked (contributed amount : Nat) : Except ProgErr Nat :=
  if contributed + amount < U64MOD then .ok (contributed + amount)
  else .error .arithmeticOverflow

/-- The ledger visible after an operation: an `Err` return aborts the whole
transaction, so the stored record is the original one; an `Ok` return commits
the updated record. -/
def ledgerAfter (c : LiquidityContribution)
    (r : Except ProgErr (Nat × LiquidityContribution)) : LiquidityContribution :=
  match r with
  | .ok (_, c2) => c2
  | .error _ => c

/-- Whether an embedded operation succeeded. -/
def exceptOk {e a : Type} : Except e a → Bool
  | .ok _ => true
  | .error _ => false

/-- Sample 32-byte identity used for concrete witnesses. -/
def pkOne : List Nat := List.replicate 32 1

/-- Second sample 32-byte identity. -/
def pkTwo : List Nat := List.replicate 32 2

/-- Third sample 32-byte identity. -/
def pkThree : List Nat := List.replicate 32 3

/-- Sample global configuration in the 136-byte layout. -/
def stateSample : ProgramStateV1 :=
  { admin := pkOne, yot_mint := pkTwo, yos_mint := pkThree
    lp_contribution_rate := 2000, admin_fee_rate := 10
    yos_cashback_rate := 500, swap_fee_rate := 30, referral_rate := 50 }

/-- Sample ledger record: owned by `pkTwo`, 200000 contributed. -/
def ledgerSample : LiquidityContribution :=
  { user := pkTwo, contributed_amount := 200000
    start_timestamp := 1700000000, last_claim_time := 1700000000
    total_claimed_yos := 0 }

/-- Sample 150-byte buffer. -/
def bufSample : List Nat := List.replicate 150 0

/-- Claim C1 (amended): in `process_buy_and_distribute` of
`multi_hub_swap.rs`, for every gross amount and rate set whose components do
not overflow `u64` and whose rates sum to at most 10000 basis points, the
user amount is computed as the residual of the gross amount minus the other
computed components, so the three components sum to the gross amount exactly.
(The revision in `multi_hub_swap_complete.rs` instead computes every portion
independently and violates exactness; see the counterexample.) -/
theorem C1_split_exact_residual (amount lp yos : Nat)
    (hA : amount < U64MOD) (hR : lp + yos ≤ 10000)
    (h1 : amount * lp < U64MOD) (h2 : amount * yos < U64MOD) :
    (distSplit amount lp yos).1 + (distSplit amount lp yos).2.1 +
      (distSplit amount lp yos).2.2 = amount ∧
    (distSplit amount lp yos).1 =
      amount - (distSplit amount lp yos).2.1 - (distSplit amount lp yos).2.2 := by
  have key : amount * lp / 10000 + amount * yos / 10000 ≤ amount := by
    have d1 : amount * lp / 10000 * 10000 ≤ amount * lp :=
      Nat.div_mul_le_self _ _
    have d2 : amount * yos / 10000 * 10000 ≤ amount * yos :=
      Nat.div_mul_le_self _ _
    have hm : amount * lp + amount * yos ≤ amount * 10000 := by
      rw [← Nat.mul_add]
      exact Nat.mul_le_mul_left _ hR
    have h3 : (amount * lp / 10000 + amount * yos / 10000) * 10000 ≤
        amount * 10000 := by
      calc (amount * lp / 10000 + amount * yos / 10000) * 10000
          = amount * lp / 10000 * 10000 + amount * yos / 10000 * 10000 := by ring
        _ ≤ amount * lp + amount * yos := Nat.add_le_add d1 d2
        _ ≤ amount * 10000 := hm
    exact Nat.le_of_mul_le_mul_right h3 (by norm_num)
  simp only [distSplit, wrap64]
  rw [Nat.mod_eq_of_lt h1, Nat.mod_eq_of_lt h2]
  simp only [sub64, U64MOD] at *
  omega

/-- Claim C1 counterexample: the `BuyAndDistribute` split of
`multi_hub_swap_complete.rs` at gross amount 99 produces portions
74 + 19 + 4 = 97, which is not 99, and its user portion 74 is not the
residual 99 - 19 - 4 = 76. -/
theorem C1_counterexample :
    (buyDistributePortions 99).1 + (buyDistributePortions 99).2.1 +
      (buyDistributePortions 99).2.2 = 97 ∧ (97 : Nat) ≠ 99 ∧
    (buyDistributePortions 99).1 ≠
      99 - (buyDistributePortions 99).2.1 - (buyDistributePortions 99).2.2 := by
  refine ⟨by decide, by decide, by decide⟩

/-- Claim C2 (confirmed): encoding a valid `ProgramState` (136-byte layout of
`manual_serialization.rs`) or a valid `LiquidityContribution` (64-byte layout
of `multi_hub_swap_complete.rs`) into a sufficiently large buffer and
decoding that buffer yields the original value. -/
theorem C2_codec_roundtrip :
    (∀ (s : ProgramStateV1) (dst : List Nat), s.valid → 136 ≤ dst.length →
      ∃ buf, s.serialize dst = .ok buf ∧
        ProgramStateV1.deserialize buf = .ok s) ∧
    (∀ (c : LiquidityContribution) (dst : List Nat), c.valid → 64 ≤ dst.length →
      ∃ buf, c.pack dst = .ok buf ∧
        LiquidityContribution.unpack buf = .ok c) :=
  ⟨programStateV1_roundtrip, liquidityContribution_roundtrip⟩

/-- Witness for C2 at a concrete state, ledger and 150-byte buffer. -/
theorem C2_codec_roundtrip_witness :
    (∃ buf, stateSample.serialize bufSample = .ok buf ∧
      ProgramStateV1.deserialize buf = .ok stateSample) ∧
    (∃ buf, ledgerSample.pack bufSample = .ok buf ∧
      LiquidityContribution.unpack buf = .ok ledgerSample) :=
  ⟨C2_codec_roundtrip.1 stateSample bufSample (by decide) (by decide),
   C2_codec_roundtrip.2 ledgerSample bufSample (by decide) (by decide)⟩

/-- Claim C3 (confirmed): a 136-byte legacy buffer decodes successfully
through `ProgramState::unpack` of `multi_hub_swap_complete.rs`: the eight
legacy fields are read from the buffer, `liquidity_wallet` defaults to the
all-zero identity and `liquidity_threshold` to the documented constant
100000000. -/
theorem C3_legacy_decode (data : List Nat) (h : data.length = 136) :
    ProgramStateV2.unpack data = .ok
      { admin := byteSlice data 0 32
        yot_mint := byteSlice data 32 32
        yos_mint := byteSlice data 64 32
        lp_contribution_rate := leToNat (byteSlice data 96 8)
        admin_fee_rate := leToNat (byteSlice data 104 8)
        yos_cashback_rate := leToNat (byteSlice data 112 8)
        swap_fee_rate := leToNat (byteSlice data 120 8)
        referral_rate := leToNat (byteSlice data 128 8)
        liquidity_wallet := List.replicate 32 0
        liquidity_threshold := 100000000 } := by
  unfold ProgramStateV2.unpack
  rw [if_pos (by omega), if_neg (by omega)]

/-- Sample 136-byte legacy buffer. -/
def buf136 : List Nat := List.replicate 136 9

/-- Witness for C3 at a concrete 136-byte buffer. -/
theorem C3_legacy_decode_witness :
    ProgramStateV2.unpack buf136 = .ok
      { admin := byteSlice buf136 0 32
        yot_mint := byteSlice buf136 32 32
        yos_mint := byteSlice buf136 64 32
        lp_contribution_rate := leToNat (byteSlice buf136 96 8)
        admin_fee_rate := leToNat (byteSlice buf136 104 8)
        yos_cashback_rate := leToNat (byteSlice buf136 112 8)
        swap_fee_rate := leToNat (byteSlice buf136 120 8)
        referral_rate := leToNat (byteSlice buf136 128 8)
        liquidity_wallet := List.replicate 32 0
        liquidity_threshold := 100000000 } :=
  C3_legacy_decode buf136 (by decide)

/-- Claim C4 (confirmed): for every ledger with a non-zero contribution and a
matching owner, a claim at `last_claim_time + 604800 - 1` fails on the
cooldown gate (reported by the program as `InvalidArgument`, the spec's
`TooEarly`), and a claim at exactly `last_claim_time + 604800` succeeds, in
both the `multi_hub_swap.rs` and the `multi_hub_swap_complete.rs` revision. -/
theorem C4_cooldown_boundary (caller userKey : List Nat)
    (c : LiquidityContribution) (hu : c.user = userKey)
    (hc : c.contributed_amount ≠ 0) :
    process_claim_weekly_reward caller true userKey c
        (c.last_claim_time + 604800 - 1) = .error .invalidArgument ∧
    exceptOk (process_claim_weekly_reward caller true userKey c
        (c.last_claim_time + 604800)) = true ∧
    process_claim_rewards caller true userKey c
        (c.last_claim_time + 604800 - 1) = .error .invalidArgument ∧
    exceptOk (process_claim_rewards caller true userKey c
        (c.last_claim_time + 604800)) = true := by
  have t1 : c.last_claim_time + 604800 - 1 - c.last_claim_time < 604800 := by
    omega
  have t2 : ¬(c.last_claim_time + 604800 - c.last_claim_time < 604800) := by
    omega
  simp [process_claim_weekly_reward, process_claim_rewards, exceptOk,
    hu, hc, t1, t2]

/-- Witness for C4 at a concrete ledger. -/
theorem C4_cooldown_boundary_witness :
    process_claim_weekly_reward pkOne true pkTwo ledgerSample
        (ledgerSample.last_claim_time + 604800 - 1) = .error .invalidArgument ∧
    exceptOk (process_claim_weekly_reward pkOne true pkTwo ledgerSample
        (ledgerSample.last_claim_time + 604800)) = true ∧
    process_claim_rewards pkOne true pkTwo ledgerSample
        (ledgerSample.last_claim_time + 604800 - 1) = .error .invalidArgument ∧
    exceptOk (process_claim_rewards pkOne true pkTwo ledgerSample
        (ledgerSample.last_claim_time + 604800)) = true :=
  C4_cooldown_boundary pkOne pkTwo ledgerSample (by decide) (by decide)

/-- Claim C5 counterexample: the weekly-reward claim of `multi_hub_swap.rs`
is deliberately callable by any signer on behalf of the record owner: with
caller `pkOne`, which differs from the ledger owner `pkTwo`, the claim still
succeeds instead of failing with the spec's `Unauthorized`. -/
theorem C5_counterexample :
    pkOne ≠ ledgerSample.user ∧
    exceptOk (process_claim_weekly_reward pkOne true ledgerSample.user
      ledgerSample 1700604800) = true := by
  refine ⟨by decide, by decide⟩

/-- Claim C5 (amended): `withdraw()` and `contribute()` fail (with
`InvalidAccountData`, the program's encoding of the spec's `Unauthorized`)
and leave the ledger unchanged whenever the signing user differs from
`ledger.owner`; `claim()` enforces the same gate against the beneficiary
user account it is invoked for, but permits any third-party signer to claim
on the owner's behalf. -/
theorem C5_owner_gate (caller userKey : List Nat) (c : LiquidityContribution)
    (now : Int) (amount : Nat) (hne : userKey ≠ c.user) :
    process_claim_weekly_reward caller true userKey c now =
      .error .invalidAccountData ∧
    ledgerAfter c (process_claim_weekly_reward caller true userKey c now) = c ∧
    process_claim_rewards caller true userKey c now =
      .error .invalidAccountData ∧
    ledgerAfter c (process_claim_rewards caller true userKey c now) = c ∧
    process_withdraw_contribution true userKey c = .error .invalidAccountData ∧
    ledgerAfter c (process_withdraw_contribution true userKey c) = c ∧
    process_withdraw_liquidity true userKey c = .error .invalidAccountData ∧
    ledgerAfter c (process_withdraw_liquidity true userKey c) = c ∧
    process_contribute true userKey c amount = .error .invalidAccountData := by
  have h : c.user ≠ userKey := fun hh => hne hh.symm
  simp [process_claim_weekly_reward, process_claim_rewards,
    process_withdraw_contribution, process_withdraw_liquidity,
    process_contribute, ledgerAfter, h]

/-- Witness for C5 at a concrete mismatched identity. -/
theorem C5_owner_gate_witness :
    process_claim_weekly_reward pkThree true pkOne ledgerSample 1700604800 =
      .error .invalidAccountData ∧
    ledgerAfter ledgerSample (process_claim_weekly_reward pkThree true pkOne
      ledgerSample 1700604800) = ledgerSample ∧
    process_claim_rewards pkThree true pkOne ledgerSample 1700604800 =
      .error .invalidAccountData ∧
    ledgerAfter ledgerSample (process_claim_rewards pkThree true pkOne
      ledgerSample 1700604800) = ledgerSample ∧
    process_withdraw_contribution true pkOne ledgerSample =
      .error .invalidAccountData ∧
    ledgerAfter ledgerSample (process_withdraw_contribution true pkOne
      ledgerSample) = ledgerSample ∧
    process_withdraw_liquidity true pkOne ledgerSample =
      .error .invalidAccountData ∧
    ledgerAfter ledgerSample (process_withdraw_liquidity true pkOne
      ledgerSample) = ledgerSample ∧
    process_contribute true pkOne ledgerSample 42 =
      .error .invalidAccountData :=
  C5_owner_gate pkThree pkOne ledgerSample 1700604800 42 (by decide)

/-- Claim C6 (confirmed): in the 192-basis-point revision
(`process_claim_weekly_reward` of `multi_hub_swap.rs`), a successful claim on
a ledger with `contributed_amount = 200000` pays 200000 * 192 / 10000 = 3840,
sets `last_claim_time` to `now` and adds the reward to `total_claimed_yos`. -/
theorem C6_claim_payout (caller userKey : List Nat)
    (c : LiquidityContribution) (now : Int)
    (hu : c.user = userKey) (hcon : c.contributed_amount = 200000)
    (ht : 604800 ≤ now - c.last_claim_time)
    (hb : c.total_claimed_yos + 3840 < U64MOD) :
    process_claim_weekly_reward caller true userKey c now =
      .ok (3840, { c with last_claim_time := now
                          total_claimed_yos := c.total_claimed_yos + 3840 }) := by
  have h0 : c.contributed_amount ≠ 0 := by omega
  have ht2 : ¬(now - c.last_claim_time < 604800) := by omega
  have hw : wrap64 (c.contributed_amount * 192) / 10000 = 3840 := by
    rw [hcon]; decide
  have hm : (c.total_claimed_yos + 3840) % U64MOD =
      c.total_claimed_yos + 3840 := Nat.mod_eq_of_lt hb
  simp [process_claim_weekly_reward, hu, h0, ht2, hw, hm]

/-- Witness for C6 at a concrete ledger and claim time. -/
theorem C6_claim_payout_witness :
    process_claim_weekly_reward pkOne true pkTwo ledgerSample 1700604800 =
      .ok (3840, { ledgerSample with
                     last_claim_time := 1700604800
                     total_claimed_yos := ledgerSample.total_claimed_yos + 3840 }) :=
  C6_claim_payout pkOne pkTwo ledgerSample 1700604800 (by decide) (by decide)
    (by decide) (by decide)

/-- Claim C7 (confirmed): a successful withdrawal returns the full
`contributed_amount`, zeroes it, and preserves `user`,
`total_claimed_yos`, `start_timestamp` and `last_claim_time`, in both the
`multi_hub_swap.rs` and the `multi_hub_swap_complete.rs` revision; the record
itself is rewritten, not removed. -/
theorem C7_withdraw_preserves_history (userKey : List Nat)
    (c : LiquidityContribution) (hu : c.user = userKey)
    (hc : c.contributed_amount ≠ 0) :
    process_withdraw_contribution true userKey c =
      .ok (c.contributed_amount,
        { user := c.user
          contributed_amount := 0
          start_timestamp := c.start_timestamp
          last_claim_time := c.last_claim_time
          total_claimed_yos := c.total_claimed_yos }) ∧
    process_withdraw_liquidity true userKey c =
      .ok (c.contributed_amount, { c with contributed_amount := 0 }) := by
  simp [process_withdraw_contribution, process_withdraw_liquidity, hu, hc]

/-- Witness for C7 at a concrete ledger. -/
theorem C7_withdraw_preserves_history_witness :
    process_withdraw_contribution true pkTwo ledgerSample =
      .ok (ledgerSample.contributed_amount,
        { user := ledgerSample.user
          contributed_amount := 0
          start_timestamp := ledgerSample.start_timestamp
          last_claim_time := ledgerSample.last_claim_time
          total_claimed_yos := ledgerSample.total_claimed_yos }) ∧
    process_withdraw_liquidity true pkTwo ledgerSample =
      .ok (ledgerSample.contributed_amount,
        { ledgerSample with contributed_amount := 0 }) :=
  C7_withdraw_preserves_history pkTwo ledgerSample (by decide) (by decide)

/-- Claim C8 (confirmed): `Contribute` adds the gross input amount itself to
the ledger (no split), while `BuyAndDistribute` splits first and adds only
the liquidity portion: with `amount_in = 1000000` and rates lp = 2000,
cashback = 500 basis points, the split is `(user 750000, liquidity 200000,
cashback 50000)` and the ledger grows by 200000; the hardcoded 75/20/5 split
of `multi_hub_swap_complete.rs` agrees at this input. -/
theorem C8_contribute_vs_buy (userKey : List Nat)
    (c : LiquidityContribution) (amount : Nat) (now : Int)
    (hu : c.user = userKey)
    (hb1 : c.contributed_amount + amount < U64MOD)
    (hb2 : c.contributed_amount + 200000 < U64MOD) :
    process_contribute true userKey c amount =
      .ok { c with contributed_amount := c.contributed_amount + amount } ∧
    (∃ out, process_buy_and_distribute true userKey c 2000 500 1000000 now =
        .ok out ∧
      out.1 = (750000, 200000, 50000) ∧
      out.2.contributed_amount = c.contributed_amount + 200000) ∧
    buyDistributePortions 1000000 = (750000, 200000, 50000) := by
  have hds : distSplit 1000000 2000 500 = (750000, 200000, 50000) := by decide
  have hbuy : process_buy_and_distribute true userKey c 2000 500 1000000 now =
      .ok ((750000, 200000, 50000),
        { user := userKey
          contributed_amount := (c.contributed_amount + 200000) % U64MOD
          start_timestamp :=
            if c.start_timestamp = 0 then now else c.start_timestamp
          last_claim_time :=
            if c.last_claim_time = 0 then now else c.last_claim_time
          total_claimed_yos := c.total_claimed_yos }) := by
    simp [process_buy_and_distribute, hds]
  refine ⟨by simp [process_contribute, hu, Nat.mod_eq_of_lt hb1],
    ⟨_, hbuy, rfl, by simp [Nat.mod_eq_of_lt hb2]⟩, by decide⟩

/-- Witness for C8 at a concrete ledger. -/
theorem C8_contribute_vs_buy_witness :
    process_contribute true pkTwo ledgerSample 1000000 =
      .ok { ledgerSample with
              contributed_amount := ledgerSample.contributed_amount + 1000000 } ∧
    (∃ out, process_buy_and_distribute true pkTwo ledgerSample 2000 500 1000000
        1700604800 = .ok out ∧
      out.1 = (750000, 200000, 50000) ∧
      out.2.contributed_amount = ledgerSample.contributed_amount + 200000) ∧
    buyDistributePortions 1000000 = (750000, 200000, 50000) :=
  C8_contribute_vs_buy pkTwo ledgerSample 1000000 1700604800 (by decide)
    (by decide) (by decide)

/-- Claim C9 counterexample: the `BuyAndDistribute` split and the
`contribute()` ledger addition of `multi_hub_swap_complete.rs` use plain
`u64` arithmetic: at `amount = 2^62` the user portion silently wraps to
138350580552821637 instead of the exact 2^62 * 75 / 100 (no
`ArithmeticOverflow` is raised), and contributing 2^63 on top of a 2^63
balance silently wraps the ledger to 0. -/
theorem C9_counterexample :
    (buyDistributePortions 4611686018427387904).1 = 138350580552821637 ∧
    (138350580552821637 : Nat) ≠ 4611686018427387904 * 75 / 100 ∧
    process_contribute true pkTwo
      { user := pkTwo, contributed_amount := 9223372036854775808
        start_timestamp := 0, last_claim_time := 0, total_claimed_yos := 0 }
      9223372036854775808 =
      .ok { user := pkTwo, contributed_amount := 0, start_timestamp := 0
            last_claim_time := 0, total_claimed_yos := 0 } := by
  refine ⟨by decide, by decide, ?_⟩
  rfl

/-- Claim C9 (amended): the swap split of `attached_assets/New_Version.rs`
widens each multiplication to `u128` and uses checked multiplication and
division that fail with `ArithmeticOverflow` rather than wrapping — for any
`u64` total and rates summing to at most 10000 basis points it returns the
exact unwrapped components — and its ledger addition is a checked add that
returns the exact sum or fails with `ArithmeticOverflow`.  The plain `u64`
arithmetic of `multi_hub_swap_complete.rs` (see the counterexample) does not
satisfy the original claim. -/
theorem C9_checked_arithmetic (total lp yos : Nat)
    (ht : total < U64MOD) (hr : lp + yos ≤ 10000) :
    solToYotSplit total lp yos =
      .ok (total * (10000 - lp - yos) / 10000, total * lp / 10000,
           total * yos / 10000) ∧
    (∀ a b : Nat, a + b < U64MOD → contributeUpdateChecked a b = .ok (a + b)) ∧
    (∀ a b : Nat, U64MOD ≤ a + b →
      contributeUpdateChecked a b = .error .arithmeticOverflow) := by
  have ht2 : total ≤ 18446744073709551615 := by unfold U64MOD at ht; omega
  have hrate : sub64 (sub64 10000 lp) yos = 10000 - lp - yos := by
    unfold sub64 U64MOD; omega
  have hmul : ∀ r : Nat, r ≤ 10000 →
      checkedMulU128 total r = some (total * r) := by
    intro r hr10
    unfold checkedMulU128 U128MOD
    rw [if_pos]
    have b1 : total * r ≤ total * 10000 := Nat.mul_le_mul_left _ hr10
    have b2 : total * 10000 ≤ 18446744073709551615 * 10000 :=
      Nat.mul_le_mul_right _ ht2
    omega
  have hq : ∀ r : Nat, r ≤ 10000 →
      total * r / 10000 % U64MOD = total * r / 10000 := by
    intro r hr10
    apply Nat.mod_eq_of_lt
    have b1 : total * r / 10000 ≤ total * 10000 / 10000 :=
      Nat.div_le_div_right (Nat.mul_le_mul_left _ hr10)
    rw [Nat.mul_div_cancel _ (by norm_num : 0 < 10000)] at b1
    exact lt_of_le_of_lt b1 ht
  refine ⟨?_, fun a b h => by simp [contributeUpdateChecked, h],
    fun a b h => by unfold contributeUpdateChecked; rw [if_neg (by omega)]⟩
  simp [solToYotSplit, hrate, checkedDivU128,
    hmul (10000 - lp - yos) (by omega), hmul lp (by omega), hmul yos (by omega),
    hq (10000 - lp - yos) (by omega), hq lp (by omega), hq yos (by omega)]

/-- Witness for C9 at total 1000000 with rates 2000 and 500, and concrete
checked additions. -/
theorem C9_checked_arithmetic_witness :
    solToYotSplit 1000000 2000 500 =
      .ok (1000000 * (10000 - 2000 - 500) / 10000, 1000000 * 2000 / 10000,
           1000000 * 500 / 10000) ∧
    contributeUpdateChecked 5 7 = .ok (5 + 7) ∧
    contributeUpdateChecked 18446744073709551615 1 =
      .error .arithmeticOverflow := by
  obtain ⟨h1, h2, h3⟩ :=
    C9_checked_arithmetic 1000000 2000 500 (by decide) (by decide)
  exact ⟨h1, h2 5 7 (by decide), h3 18446744073709551615 1 (by decide)⟩

/-- Claim C10 (confirmed): the decoders accept oversized buffers.  The
136-byte decoder of `manual_serialization.rs` succeeds on any buffer of at
least 136 bytes and reads only the first 136; the length-sniffing decoder of
`multi_hub_swap_complete.rs` succeeds on any buffer of at least 176 bytes
reading only the first 176, and on any buffer of length strictly between 136
and 176 it succeeds through the legacy path, reading only the first 136
bytes and defaulting the extended fields. -/
theorem C10_oversized_decode :
    (∀ buf : List Nat, 136 ≤ buf.length →
      exceptOk (ProgramStateV1.deserialize buf) = true ∧
      ProgramStateV1.deserialize buf =
        ProgramStateV1.deserialize (buf.take 136)) ∧
    (∀ buf : List Nat, 176 ≤ buf.length →
      exceptOk (ProgramStateV2.unpack buf) = true ∧
      ProgramStateV2.unpack buf = ProgramStateV2.unpack (buf.take 176)) ∧
    (∀ buf : List Nat, 136 < buf.length → buf.length < 176 →
      exceptOk (ProgramStateV2.unpack buf) = true ∧
      ProgramStateV2.unpack buf = ProgramStateV2.unpack (buf.take 136) ∧
      ∃ s, ProgramStateV2.unpack buf = .ok s ∧
        s.liquidity_wallet = List.replicate 32 0 ∧
        s.liquidity_threshold = 100000000) := by
  refine ⟨?_, ?_, ?_⟩
  · intro buf h
    have hl : (buf.take 136).length = 136 := by
      rw [List.length_take]; omega
    constructor
    · unfold ProgramStateV1.deserialize
      rw [if_neg (by omega)]
      rfl
    · unfold ProgramStateV1.deserialize
      rw [if_neg (by omega), if_neg (by omega)]
      simp [byteSlice_take]
  · intro buf h
    have hl : (buf.take 176).length = 176 := by
      rw [List.length_take]; omega
    constructor
    · unfold ProgramStateV2.unpack
      rw [if_neg (by omega)]
      rfl
    · unfold ProgramStateV2.unpack
      rw [if_neg (by omega), if_neg (by omega)]
      simp [byteSlice_take]
  · intro buf h1 h2
    have hl : (buf.take 136).length = 136 := by
      rw [List.length_take]; omega
    have hbuf : ProgramStateV2.unpack buf = .ok
        { admin := byteSlice buf 0 32
          yot_mint := byteSlice buf 32 32
          yos_mint := byteSlice buf 64 32
          lp_contribution_rate := leToNat (byteSlice buf 96 8)
          admin_fee_rate := leToNat (byteSlice buf 104 8)
          yos_cashback_rate := leToNat (byteSlice buf 112 8)
          swap_fee_rate := leToNat (byteSlice buf 120 8)
          referral_rate := leToNat (byteSlice buf 128 8)
          liquidity_wallet := List.replicate 32 0
          liquidity_threshold := 100000000 } := by
      unfold ProgramStateV2.unpack
      rw [if_pos (by omega), if_neg (by omega)]
    refine ⟨by rw [hbuf]; rfl, ?_, _, hbuf, rfl, rfl⟩
    rw [hbuf]
    unfold ProgramStateV2.unpack
    rw [if_pos (by omega), if_neg (by omega)]
    simp [byteSlice_take]

/-- Sample 200-byte buffer. -/
def buf200 : List Nat := List.replicate 200 5

/-- Witness for C10 at concrete 150- and 200-byte buffers. -/
theorem C10_oversized_decode_witness :
    (exceptOk (ProgramStateV1.deserialize bufSample) = true ∧
     ProgramStateV1.deserialize bufSample =
       ProgramStateV1.deserialize (bufSample.take 136)) ∧
    (exceptOk (ProgramStateV2.unpack buf200) = true ∧
     ProgramStateV2.unpack buf200 = ProgramStateV2.unpack (buf200.take 176)) ∧
    (exceptOk (ProgramStateV2.unpack bufSample) = true ∧
     ProgramStateV2.unpack bufSample =
       ProgramStateV2.unpack (bufSample.take 136) ∧
     ∃ s, ProgramStateV2.unpack bufSample = .ok s ∧
       s.liquidity_wallet = List.replicate 32 0 ∧
       s.liquidity_threshold = 100000000) :=
  ⟨C10_oversized_decode.1 bufSample (by decide),
   C10_oversized_decode.2.1 buf200 (by decide),
   C10_oversized_decode.2.2 bufSample (by decide) (by decide)⟩

/-- Witness for the amended C1 at amount 1000000 with rates 2000 and 500. -/
theorem C1_split_exact_residual_witness :
    (distSplit 1000000 2000 500).1 + (distSplit 1000000 2000 500).2.1 +
      (distSplit 1000000 2000 500).2.2 = 1000000 ∧
    (distSplit 1000000 2000 500).1 =
      1000000 - (distSplit 1000000 2000 500).2.1 -
        (distSplit 1000000 2000 500).2.2 :=
  C1_split_exact_residual 1000000 2000 500 (by decide) (by decide) (by decide)
    (by decide)
